import Mathlib

/-!
Verification development for the Comment-Widget annotation engine
(TypeScript sources under src/src/core/).  JavaScript numbers are modelled
by exact rationals where the code only manipulates finite values, and by
the type JSNum (rational, infinity or NaN) where the code explicitly
guards against non-finite values.  DOM reads (bounding rectangles, scroll
offsets, element stacks) are modelled as explicit inputs: every definition
below transcribes a function or code block of the repository, with its
source location given in the doc comment.
-/

namespace CommentWidget

/-- Model of a JavaScript number for code paths that test NaN or
infinity: either NaN, a signed infinity, or a finite value carried as an
exact rational. -/
inductive JSNum where
  | nan : JSNum
  | inf : Bool → JSNum   -- true = +Infinity, false = -Infinity
  | num : ℚ → JSNum
deriving DecidableEq, Repr

namespace JSNum

/-- JavaScript subtraction: NaN propagates, same-signed infinities give
NaN, an infinity dominates a finite operand. -/
def sub : JSNum → JSNum → JSNum
  | nan, _ => nan
  | _, nan => nan
  | inf p, inf q => if p = q then nan else inf p
  | inf p, num _ => inf p
  | num _, inf p => inf !p
  | num a, num b => num (a - b)

/-- JavaScript addition on the same model. -/
def add : JSNum → JSNum → JSNum
  | nan, _ => nan
  | _, nan => nan
  | inf p, inf q => if p = q then inf p else nan
  | inf p, num _ => inf p
  | num _, inf p => inf p
  | num a, num b => num (a + b)

/-- JavaScript comparison a <= b: false whenever an operand is NaN. -/
def jle : JSNum → JSNum → Bool
  | nan, _ => false
  | _, nan => false
  | inf p, inf q => !p || q
  | inf p, num _ => !p
  | num _, inf p => p
  | num a, num b => decide (a ≤ b)

/-- JavaScript comparison a < b: false whenever an operand is NaN. -/
def jlt : JSNum → JSNum → Bool
  | nan, _ => false
  | _, nan => false
  | inf p, inf q => !p && q
  | inf p, num _ => !p
  | num _, inf p => p
  | num a, num b => decide (a < b)

/-- Model of JavaScript isNaN on this number model. -/
def isNaNb : JSNum → Bool
  | nan => true
  | _ => false

/-- Model of JavaScript isFinite on this number model. -/
def isFiniteB : JSNum → Bool
  | num _ => true
  | _ => false

/-- Model of Math.abs. -/
def absN : JSNum → JSNum
  | nan => nan
  | inf _ => inf true
  | num a => num (if a < 0 then -a else a)

end JSNum

/-! ## CoordinateSpace: click-to-document and document-to-viewport
transforms (src/src/core/CommentLayer.tsx).

The code reads these geometry values fresh from the DOM at use time; the
frame record is the snapshot it reads.  All values involved are finite
(clientX/clientY, getBoundingClientRect, scroll offsets), so exact
rationals model them. -/

/-- Geometry snapshot shared by the background-click handler and the
visibility filter: whether the overlay is scoped to a sub-container (and
the widget root has a parent), the container rectangle position in the
window viewport, the container scroll offsets and the window scroll
offsets. -/
structure ClickFrame where
  isScoped : Bool
  containerLeft : ℚ
  containerTop : ℚ
  containerScrollX : ℚ
  containerScrollY : ℚ
  windowScrollX : ℚ
  windowScrollY : ℚ
deriving DecidableEq, Repr

/-- Transcription of the document-coordinate computation in onDocClick
(CommentLayer.tsx lines 746-767): for a scoped container the click is
first made container-relative (clientX - containerRect.left +
container.scrollLeft) and then shifted by the container document offset
(containerRect.left + window.scrollX); for full-page mode it is
clientX + window.scrollX. -/
def onDocClickDoc (f : ClickFrame) (clientX clientY : ℚ) : ℚ × ℚ :=
  if f.isScoped then
    let currentContainerOffsetX := f.containerLeft + f.windowScrollX
    let currentContainerOffsetY := f.containerTop + f.windowScrollY
    let containerRelativeX := clientX - f.containerLeft + f.containerScrollX
    let containerRelativeY := clientY - f.containerTop + f.containerScrollY
    (containerRelativeX + currentContainerOffsetX,
     containerRelativeY + currentContainerOffsetY)
  else
    (clientX + f.windowScrollX, clientY + f.windowScrollY)

/-- Transcription of the viewport-coordinate computation used by the
visibility filter on a stored document position (CommentLayer.tsx: the
map step at lines 328-354 computes relativeX = comment.x -
(containerRect.left + window.scrollX) when scoped, and the filter step at
lines 368-390 then computes viewportX = relativeX - container.scrollLeft;
in full-page mode with no scrollable ancestor, lines 428-436 compute
viewportX = comment.x - window.scrollX). -/
def visibleViewport (f : ClickFrame) (docX docY : ℚ) : ℚ × ℚ :=
  if f.isScoped then
    let relativeX := docX - (f.containerLeft + f.windowScrollX)
    let relativeY := docY - (f.containerTop + f.windowScrollY)
    (relativeX - f.containerScrollX, relativeY - f.containerScrollY)
  else
    (docX - f.windowScrollX, docY - f.windowScrollY)

/-- On-screen client position of a point the filter maps to viewport
coordinates.  When scoped, the filter viewport coordinate is relative to
the container content origin minus its scroll, and the container content
origin sits at containerRect.left in the window viewport (the pin is
rendered at left: comment.x inside the scrolled container,
CommentBubble.tsx line 375); in full-page mode the filter viewport
coordinate is already a client coordinate. -/
def viewportToClient (f : ClickFrame) (vx vy : ℚ) : ℚ × ℚ :=
  if f.isScoped then (f.containerLeft + vx, f.containerTop + vy) else (vx, vy)

/-! ## PinVisibilityFilter (CommentLayer.tsx, visibleComments memo,
lines 300-471).

The filter is a pure boolean decision per comment once the DOM reads are
snapshotted.  The snapshot below carries exactly the values the filter
reads; stored comment coordinates come from persisted data and are
modelled as JSNum since the code defends against NaN, infinity and
absurdly large values.  DOM-measured quantities (scroll offsets, client
sizes, rectangle positions) are finite. -/

/-- Data of the nearest scrollable ancestor found by the full-page branch
(CommentLayer.tsx lines 392-427): its bounding-rectangle position, its
scroll offsets and its client size. -/
structure ScrollAncestor where
  rectLeft : ℚ
  rectTop : ℚ
  scrollLeft : ℚ
  scrollTop : ℚ
  clientW : ℚ
  clientH : ℚ
deriving DecidableEq, Repr

/-- DOM and state snapshot read by the visibility filter: scoped flag,
whether the widget root with a parent container exists, container scroll
and client size, the React state fallbacks (scrollOffsets,
windowDimensions), window scroll, the optional scrollable ancestor for
full-page mode, the sidebar flag and the measured config-panel width
(none when no config panel matches). -/
structure VisCtx where
  isScoped : Bool
  rootWithParent : Bool
  containerScrollX : ℚ
  containerScrollY : ℚ
  containerClientW : ℚ
  containerClientH : ℚ
  stateScrollX : ℚ
  stateScrollY : ℚ
  stateWindowW : ℚ
  stateWindowH : ℚ
  windowScrollX : ℚ
  windowScrollY : ℚ
  scrollAncestor : Option ScrollAncestor
  isSidebarOpen : Bool
  configPanelW : Option ℚ
deriving DecidableEq, Repr

/-- Per-comment interaction flags read by the filter: whether this
comment is the one being dragged (draggingCommentId === comment.id), is
in the recently-dragged set, or is the active thread. -/
structure PinFlags where
  dragging : Bool
  recentlyDragged : Bool
  active : Bool
deriving DecidableEq, Repr

/-- Width subtracted for the open comment sidebar (CommentLayer.tsx
line 301: isSidebarOpen ? 320 : 0). -/
def sidebarWidth (ctx : VisCtx) : ℚ := if ctx.isSidebarOpen then 320 else 0

/-- Left config-panel width (CommentLayer.tsx lines 317-326): zero when
scoped, otherwise the measured panel width or zero when absent. -/
def leftSidebarWidth (ctx : VisCtx) : ℚ :=
  if ctx.isScoped then 0 else ctx.configPanelW.getD 0

/-- Viewport position and effective viewport size the filter computes
for a comment (CommentLayer.tsx lines 368-437).  The input coordinates
are the mapped comment coordinates (document coordinates, made
container-relative by the map step when scoped).  Returns
(viewportX, viewportY, effectiveViewportWidth, effectiveViewportHeight). -/
def filterViewportData (ctx : VisCtx) (cx cy : JSNum) :
    JSNum × JSNum × ℚ × ℚ :=
  let viewportWidth := ctx.stateWindowW - sidebarWidth ctx
  let viewportHeight := ctx.stateWindowH
  if ctx.isScoped then
    if ctx.rootWithParent then
      (cx.sub (JSNum.num ctx.containerScrollX),
       cy.sub (JSNum.num ctx.containerScrollY),
       ctx.containerClientW - sidebarWidth ctx,
       ctx.containerClientH)
    else
      (cx.sub (JSNum.num ctx.stateScrollX),
       cy.sub (JSNum.num ctx.stateScrollY),
       viewportWidth, viewportHeight)
  else
    match ctx.scrollAncestor with
    | some a =>
      let containerDocX := a.rectLeft + ctx.windowScrollX
      let containerDocY := a.rectTop + ctx.windowScrollY
      let containerRelativeX := cx.sub (JSNum.num containerDocX)
      let containerRelativeY := cy.sub (JSNum.num containerDocY)
      (containerRelativeX.sub (JSNum.num a.scrollLeft),
       containerRelativeY.sub (JSNum.num a.scrollTop),
       a.clientW - sidebarWidth ctx,
       a.clientH)
    | none =>
      (cx.sub (JSNum.num ctx.windowScrollX),
       cy.sub (JSNum.num ctx.windowScrollY),
       viewportWidth, viewportHeight)

/-- Transcription of the coordinate-validity check (CommentLayer.tsx
lines 447-450): not NaN, finite, and absolute value below 100000 on both
axes. -/
def hasValidCoordinates (vx vy : JSNum) : Bool :=
  !vx.isNaNb && !vy.isNaNb &&
  vx.isFiniteB && vy.isFiniteB &&
  (vx.absN.jlt (JSNum.num 100000)) && (vy.absN.jlt (JSNum.num 100000))

/-- Transcription of the filter predicate of visibleComments
(CommentLayer.tsx lines 355-470) for one comment with mapped coordinates
(cx, cy).  The early return for dragged, recently dragged or active
comments comes first; then the viewport conversion, the sidebar
exclusions, the validity check, and the margin test (600 for recently
interacted or active comments, otherwise 200); scoped mode skips the
margin test. -/
def visibleFilter (ctx : VisCtx) (fl : PinFlags) (cx cy : JSNum) : Bool :=
  if fl.dragging || fl.recentlyDragged || fl.active then true
  else
    let isRecentlyInteracted := fl.recentlyDragged || fl.dragging
    let d := filterViewportData ctx cx cy
    let vx := d.1
    let vy := d.2.1
    let evw := d.2.2.1
    let evh := d.2.2.2
    let notUnderLeftSidebar := isRecentlyInteracted ||
      decide (leftSidebarWidth ctx = 0) ||
      (JSNum.num (leftSidebarWidth ctx)).jle vx
    let notUnderRightSidebar := isRecentlyInteracted ||
      !ctx.isSidebarOpen || vx.jle (JSNum.num evw)
    if !hasValidCoordinates vx vy then false
    else
      let commentMargin : ℚ :=
        if fl.recentlyDragged || fl.dragging || fl.active then 600 else 200
      let inX := (JSNum.num (-commentMargin)).jle vx &&
        vx.jle (JSNum.num (evw + commentMargin))
      let inY := (JSNum.num (-commentMargin)).jle vy &&
        vy.jle (JSNum.num (evh + commentMargin))
      if ctx.isScoped then notUnderLeftSidebar && notUnderRightSidebar
      else inX && inY && notUnderLeftSidebar && notUnderRightSidebar

/-! ## DragGestureController (CommentBubble.tsx, handleMouseDown and the
listeners it installs, lines 36-163).

A pointer session is the data of one mousedown followed by a sequence of
mousemove events and a final mouseup.  Client coordinates, scroll
offsets and times are finite, so exact rationals model them.  The source
compares Math.sqrt(dx^2 + dy^2) against the threshold 3; rationals have
no square root, so the embedding compares the squared distance against
9, which is equivalent for non-negative radicands since squaring is
monotone. -/

/-- One mousemove (or touchmove) event: client position, the scroll
offsets the handler reads at that moment (window scroll, or container
scroll when the widget root lives in a scoped container), and the
Date.now() timestamp of the event. -/
structure MoveEvent where
  clientX : ℚ
  clientY : ℚ
  scrollX : ℚ
  scrollY : ℚ
  time : ℚ
deriving DecidableEq, Repr

/-- One pointer session on a pin: the pin start position (comment.x/y at
mousedown), the mousedown client position, the scrollOffsets prop at
mousedown (used to form startMousePos), the mousedown Date.now(), the
move events, and the mouseup client position, scroll offsets and time. -/
structure PointerSession where
  pinStartX : ℚ
  pinStartY : ℚ
  startClientX : ℚ
  startClientY : ℚ
  startScrollX : ℚ
  startScrollY : ℚ
  startTime : ℚ
  moves : List MoveEvent
  upClientX : ℚ
  upClientY : ℚ
  upScrollX : ℚ
  upScrollY : ℚ
  upTime : ℚ
deriving DecidableEq, Repr

/-- Squared Euclidean distance between two client points; the source
takes the square root before comparing against the 3px threshold
(CommentBubble.tsx lines 72-75), which is equivalent to comparing this
value against 9. -/
def distSq (ax ay bx by' : ℚ) : ℚ := (ax - bx) ^ 2 + (ay - by') ^ 2

/-- The drag threshold of CommentBubble.tsx line 34, squared. -/
def dragThresholdSq : ℚ := 9

/-- Mutable state threaded through the mousemove handler: the hasDragged
flag, the lastDragUpdate timestamp (initially 0, reset by cleanup), and
the positions emitted through onDrag so far. -/
structure MoveState where
  hasDragged : Bool
  lastDragUpdate : ℚ
  emitted : List (ℚ × ℚ)
deriving DecidableEq, Repr

/-- Transcription of handleMouseMove (CommentBubble.tsx lines 67-112):
compute the viewport distance from the start point, set hasDragged once
it exceeds the threshold, and while dragging emit
startCommentPos + ((client + currentScroll) - startMousePos), throttled
to one update per 16ms via lastDragUpdate. -/
def stepMove (s : PointerSession) (st : MoveState) (m : MoveEvent) :
    MoveState :=
  let dsq := distSq m.clientX m.clientY s.startClientX s.startClientY
  let hasDragged := st.hasDragged || decide (dsq > dragThresholdSq)
  if hasDragged then
    let currentPosX := m.clientX + m.scrollX
    let currentPosY := m.clientY + m.scrollY
    let deltaX := currentPosX - (s.startClientX + s.startScrollX)
    let deltaY := currentPosY - (s.startClientY + s.startScrollY)
    let newX := s.pinStartX + deltaX
    let newY := s.pinStartY + deltaY
    if m.time - st.lastDragUpdate > 16 then
      { hasDragged := hasDragged, lastDragUpdate := m.time,
        emitted := st.emitted ++ [(newX, newY)] }
    else
      { st with hasDragged := hasDragged }
  else
    { st with hasDragged := hasDragged }

/-- State after all mousemove events of the session. -/
def runMoves (s : PointerSession) : MoveState :=
  s.moves.foldl (stepMove s) ⟨false, 0, []⟩

/-- Whether any move of the session exceeded the drag threshold. -/
def sessionHasDragged (s : PointerSession) : Bool := (runMoves s).hasDragged

/-- The document-space position computed at mouseup
(CommentBubble.tsx lines 122-136): pin start plus the displacement of the
pointer in document space, where a pointer document position is its
client position plus the scroll offsets read at that moment. -/
def sessionFinalPos (s : PointerSession) : ℚ × ℚ :=
  (s.pinStartX + ((s.upClientX + s.upScrollX) - (s.startClientX + s.startScrollX)),
   s.pinStartY + ((s.upClientY + s.upScrollY) - (s.startClientY + s.startScrollY)))

/-- Transcription of the commit branch of handleMouseUp
(CommentBubble.tsx lines 122-146): when hasDragged, onDrag and onDragEnd
receive the final position, with no throttle test; otherwise no position
is committed. -/
def sessionCommit (s : PointerSession) : Option (ℚ × ℚ) :=
  if sessionHasDragged s then some (sessionFinalPos s) else none

/-- All positions emitted through onDrag during the session: the
throttled move emissions followed, when hasDragged, by the unconditional
final emission of handleMouseUp. -/
def sessionEmitted (s : PointerSession) : List (ℚ × ℚ) :=
  (runMoves s).emitted ++
    (if sessionHasDragged s then [sessionFinalPos s] else [])

/-- Transcription of the click branch of handleMouseUp
(CommentBubble.tsx lines 148-150): onClick fires exactly when no move
exceeded the threshold, the mouseup distance from the start point is at
most the threshold, and the elapsed time is under 150ms. -/
def sessionClick (s : PointerSession) : Bool :=
  !sessionHasDragged s &&
  decide (distSq s.upClientX s.upClientY s.startClientX s.startClientY ≤
    dragThresholdSq) &&
  decide (s.upTime - s.startTime < 150)

/-! ## AnchorResolver, generation side (generateSelector,
src/src/core/useComments.ts lines 7-56; the identical
generateSelectorForElement lives in CommentLayer.tsx lines 11-60).

An element is modelled by the data the walk reads at each ancestry
level: tag name (as the DOM reports it, uppercase), id attribute (empty
string when absent, matching JS truthiness of element.id), className
(none models a non-string className as on SVG elements, matching the
typeof check), whether a parentElement exists, and the count of same-tag
siblings under that parent together with the 1-based index of this
element among them.  The chain lists the element first and then its
ancestors strictly below body/documentElement, in the order the while
loop visits them; the loop condition current !== document.body &&
current !== document.documentElement is encoded by the chain ending
there. -/

/-- One level of the ancestor walk of generateSelector. -/
structure ElemLevel where
  tagName : String
  id : String
  className : Option String
  hasParent : Bool
  sameTagCount : ℕ
  sameTagIndex : ℕ
deriving DecidableEq, Repr

/-- Model of String.prototype.toLowerCase via the character list of the
string (the tag names involved are ASCII). -/
def jsToLower (s : String) : String := String.mk (s.data.map Char.toLower)

/-- Whether the first list is an initial run of the second; model of
String.prototype.startsWith when applied to the character lists. -/
def matchesAtStart : List Char → List Char → Bool
  | [], _ => true
  | _ :: _, [] => false
  | p :: ps, c :: cs => p = c && matchesAtStart ps cs

/-- Character-list splitter on a single space; model of
String.prototype.split applied to a one-space separator: every
occurrence separates, adjacent separators produce empty parts. -/
def splitSpacesAux : List Char → List Char → List (List Char)
  | acc, [] => [acc]
  | acc, ' ' :: rest => acc :: splitSpacesAux [] rest
  | acc, c :: rest => splitSpacesAux (acc ++ [c]) rest

/-- Model of s.split(a one-space separator). -/
def jsSplitSpaces (s : String) : List String :=
  (splitSpacesAux [] s.data).map String.mk

/-- JavaScript whitespace characters removed by String.prototype.trim
(the common ASCII ones suffice for class tokens). -/
def isJsSpace (c : Char) : Bool :=
  c = ' ' || c = '\t' || c = '\n' || c = '\r' || c = '\x0b' || c = '\x0c'

/-- Model of String.prototype.trim. -/
def jsTrim (s : String) : String :=
  String.mk (((s.data.dropWhile isJsSpace).reverse.dropWhile
    isJsSpace).reverse)

/-- Class part of a level selector (useComments.ts lines 28-34): when
className is a non-empty string, split on single spaces, keep tokens
that trim to something non-empty and that do not start with data-, and
join them with dots. -/
def classSegment (cn : Option String) : String :=
  match cn with
  | none => ""
  | some s =>
    if s = "" then ""
    else
      let classes := (jsSplitSpaces s).filter
        (fun c => jsTrim c ≠ "" && !(matchesAtStart "data-".data c.data))
      if classes.length > 0 then "." ++ String.intercalate "." classes
      else ""

/-- Selector segment for one level without an id (useComments.ts lines
18-46): lower-cased tag, class part, and :nth-of-type(index) when more
than one same-tag sibling exists under an existing parent. -/
def levelSegment (l : ElemLevel) : String :=
  let sel := jsToLower l.tagName ++ classSegment l.className
  if l.hasParent && decide (l.sameTagCount > 1) then
    sel ++ ":nth-of-type(" ++ toString l.sameTagIndex ++ ")"
  else sel

/-- Transcription of the while loop of generateSelector (useComments.ts
lines 17-53): walk the chain, prepend each level segment to the path
(Array.prototype.unshift), break after prepending tag#id when a level
has an id, and break once the path holds 5 segments. -/
def buildPath : List ElemLevel → List String → List String
  | [], path => path
  | l :: rest, path =>
    if l.id ≠ "" then (jsToLower l.tagName ++ "#" ++ l.id) :: path
    else
      let path2 := levelSegment l :: path
      if path2.length ≥ 5 then path2 else buildPath rest path2

/-- Transcription of generateSelector (useComments.ts lines 7-56): an
element with an id yields #id immediately; otherwise the collected path
segments, outermost ancestor first, joined with the string consisting of
space, greater-than sign, space. -/
def generateSelector (e : ElemLevel) (ancestors : List ElemLevel) : String :=
  if e.id ≠ "" then "#" ++ e.id
  else String.intercalate " > " (buildPath (e :: ancestors) [])

/-! ## AnchorResolver, resolution side (the selector lookup of
handleMouseEnter, src/src/core/CommentBubble.tsx lines 292-329).

The DOM is modelled as an oracle: querySelector may throw a DOMException
on a malformed selector (the error case of Except), or return an element
(identified by a number) or nothing; getElementById never throws.  The
try/catch wrapping the whole lookup is modelled by discarding the error
into none. -/

/-- The DOM query oracle the resolution code calls into. -/
structure Doc where
  query : String → Except Unit (Option ℕ)
  byId : String → Option ℕ

/-- Character-list splitter on the three-character path separator
(space, greater-than sign, space), scanning left to right; model of
String.prototype.split on that separator. -/
def splitArrowAux : List Char → List Char → List (List Char)
  | acc, [] => [acc]
  | acc, ' ' :: '>' :: ' ' :: rest => acc :: splitArrowAux [] rest
  | acc, c :: rest => splitArrowAux (acc ++ [c]) rest

/-- Model of selector.split(the path separator). -/
def splitSelectorPath (s : String) : List String :=
  (splitArrowAux [] s.data).map String.mk

/-- Model of selector.includes(the path separator): splitting on a
non-empty pattern yields more than one part exactly when the pattern
occurs. -/
def containsSeparator (s : String) : Bool :=
  (splitSelectorPath s).length > 1

/-- The body of the try block of handleMouseEnter (CommentBubble.tsx
lines 294-311): exact querySelector first; if that found nothing and the
selector contains a path separator, retry querySelector on the last path
segment (parts[parts.length - 1]); if still nothing and the selector
starts with a hash, retry getElementById on selector.substring(1).  A
thrown DOMException propagates as the error case. -/
def resolveSelectorE (d : Doc) (sel : String) : Except Unit (Option ℕ) := do
  let e0 ← d.query sel
  let e1 ←
    if e0.isNone && containsSeparator sel then
      let parts := splitSelectorPath sel
      d.query (parts.getLastD "")
    else pure e0
  let e2 :=
    if e1.isNone && matchesAtStart "#".data sel.data then
      d.byId (String.mk (sel.data.drop 1))
    else e1
  return e2

/-- The full lookup with its surrounding try/catch (CommentBubble.tsx
lines 294-327): any exception is swallowed and resolution yields no
element. -/
def resolveSelector (d : Doc) (sel : String) : Option ℕ :=
  match resolveSelectorE d sel with
  | .ok e => e
  | .error _ => none

/-! ## Data model (src/src/core/types.ts) and the useComments hook
state and mutations (src/src/core/useComments.ts).

Timestamps (Date objects) are modelled as rationals; stored positions as
JSNum since they are persisted numbers.  uuidv4(), new Date(),
window.location and the element picked under a click are environment
inputs and appear as explicit parameters of the operations that read
them. -/

/-- A reply (types.ts lines 15-21). -/
structure Reply where
  id : String
  text : String
  author : String
  timestamp : ℚ
  commentId : String
deriving DecidableEq, Repr

/-- A comment (types.ts lines 1-13). -/
structure Comment where
  id : String
  x : JSNum
  y : JSNum
  text : String
  author : String
  timestamp : ℚ
  replies : List Reply
  resolved : Bool
  pageUrl : String
  parentId : Option String
  selector : Option String
deriving DecidableEq, Repr

/-- The hook state (types.ts lines 33-40). -/
structure CommentSystemState where
  comments : List Comment
  activeCommentId : Option String
  isVisible : Bool
  isCreatingComment : Bool
  newCommentPosition : Option (ℚ × ℚ)
  showPreviewDot : Bool
deriving DecidableEq, Repr

/-- Activation source values of the hook (useComments.ts line 515). -/
inductive ActivationSource where
  | manual
  | panel
deriving DecidableEq, Repr

/-- The full mutable state of the useComments hook: the
CommentSystemState plus the two extra useState cells activationSource
and isSidebarOpen (useComments.ts lines 505-517). -/
structure HookState where
  state : CommentSystemState
  activationSource : Option ActivationSource
  isSidebarOpen : Bool
deriving DecidableEq, Repr

/-- Transcription of toggleVisibility (useComments.ts lines 545-581):
when the overlay is visible or the sidebar is open, close everything
(hide, clear active comment and creation state, close the sidebar, reset
the activation source); otherwise open the overlay, mark manual
activation, and open the sidebar unless skipSidebar was passed. -/
def toggleVisibility (skipSidebar : Bool) (h : HookState) : HookState :=
  let shouldClose := h.state.isVisible || h.isSidebarOpen
  if shouldClose then
    { state :=
        { h.state with
          isVisible := false
          activeCommentId := none
          isCreatingComment := false
          newCommentPosition := none
          showPreviewDot := false }
      activationSource := none
      isSidebarOpen := false }
  else
    { state :=
        { h.state with
          isVisible := true
          activeCommentId := none
          isCreatingComment := false
          newCommentPosition := none
          showPreviewDot := false }
      activationSource := some .manual
      isSidebarOpen := if !skipSidebar then true else h.isSidebarOpen }

/-- Transcription of the list update of updateCommentPosition
(useComments.ts lines 818-830): map over the comments, replacing x, y
and selector of the comment whose id matches; the selector keeps its old
value when newSelector is undefined (modelled by none); all other
comments pass through unchanged. -/
def updateCommentPositionList (comments : List Comment) (commentId : String)
    (newX newY : JSNum) (newSelector : Option String) : List Comment :=
  comments.map fun comment =>
    if comment.id = commentId then
      { comment with
        x := newX
        y := newY
        selector := match newSelector with
          | some s => some s
          | none => comment.selector }
    else comment

/-- Transcription of the list update of toggleCommentResolved
(useComments.ts lines 789-799): map over the comments, negating the
resolved flag of the comment whose id matches. -/
def toggleCommentResolvedList (commentId : String)
    (comments : List Comment) : List Comment :=
  comments.map fun comment =>
    if comment.id = commentId then
      { comment with resolved := !comment.resolved }
    else comment

/-- Transcription of the list update of addReply (useComments.ts lines
767-787): append the new reply to the matching comment. -/
def addReplyList (comments : List Comment) (commentId : String)
    (newReply : Reply) : List Comment :=
  comments.map fun comment =>
    if comment.id = commentId then
      { comment with replies := comment.replies ++ [newReply] }
    else comment

/-- The five store-backed mutations of the hook, each carrying the
environment values the source reads (uuidv4 results, Date.now, the page
url, and the selector computed from the element stack under the point). -/
inductive Mutation where
  | create (text author newId : String) (now : ℚ) (pageUrl : String)
      (pickedSelector : Option String)
  | addReply (commentId text author newId : String) (now : ℚ)
  | toggleResolved (commentId : String)
  | deleteComment (commentId : String)
  | updatePosition (commentId : String) (newX newY : JSNum)
      (newSelector : Option String)

/-- Synchronous state change of one mutation, paired with whether the
mutation calls saveComments.  Transcribed from createComment (lines
624-765: guard on newCommentPosition, build the comment with the
document position, empty replies, resolved false, and set it active
while clearing the creation state), addReply (767-787),
toggleCommentResolved (789-799), deleteComment (801-812, which also
clears the active id when it was the deleted comment), and
updateCommentPosition (818-830). -/
def applyMutation : Mutation → CommentSystemState →
    CommentSystemState × Bool
  | .create text author newId now pageUrl pickedSelector, st =>
    match st.newCommentPosition with
    | none => (st, false)
    | some pos =>
      let newComment : Comment :=
        { id := newId
          x := JSNum.num pos.1
          y := JSNum.num pos.2
          text := text
          author := author
          timestamp := now
          replies := []
          resolved := false
          pageUrl := pageUrl
          parentId := none
          selector := pickedSelector }
      let updatedComments := st.comments ++ [newComment]
      ({ st with
          comments := updatedComments
          isCreatingComment := false
          newCommentPosition := none
          showPreviewDot := false
          activeCommentId := some newId }, true)
  | .addReply commentId text author newId now, st =>
    let newReply : Reply :=
      { id := newId, text := text, author := author, timestamp := now,
        commentId := commentId }
    ({ st with comments := addReplyList st.comments commentId newReply },
     true)
  | .toggleResolved commentId, st =>
    ({ st with comments := toggleCommentResolvedList commentId st.comments },
     true)
  | .deleteComment commentId, st =>
    let updatedComments := st.comments.filter (fun c => c.id ≠ commentId)
    ({ st with
        comments := updatedComments
        activeCommentId :=
          if st.activeCommentId = some commentId then none
          else st.activeCommentId }, true)
  | .updatePosition commentId newX newY newSelector, st =>
    ({ st with
        comments :=
          updateCommentPositionList st.comments commentId newX newY
            newSelector }, true)

/-- Outcome of the storage adapter save promise. -/
inductive SaveOutcome where
  | success
  | failure (msg : String)

/-- Observable result of running one mutation against a store: the state
right after the handler returns (the save still pending), the state
after the save promise settles, the console errors logged, and whether
an exception escaped to the caller. -/
structure MutationRun where
  stateAfterCall : CommentSystemState
  finalState : CommentSystemState
  logged : List String
  uncaughtError : Bool
deriving DecidableEq, Repr

/-- Execution model of a mutation followed by the settling of the
asynchronous save.  Each mutation applies setState synchronously and
then calls saveComments (useComments.ts lines 534-543), whose try/catch
logs a rejection with console.error and rethrows nothing; no branch
touches the state after the save settles. -/
def runMutation (m : Mutation) (st : CommentSystemState)
    (outcome : SaveOutcome) : MutationRun :=
  let r := applyMutation m st
  if r.2 then
    match outcome with
    | .success =>
      { stateAfterCall := r.1, finalState := r.1, logged := [],
        uncaughtError := false }
    | .failure msg =>
      { stateAfterCall := r.1, finalState := r.1,
        logged := ["Failed to save comments: " ++ msg],
        uncaughtError := false }
  else
    { stateAfterCall := r.1, finalState := r.1, logged := [],
      uncaughtError := false }

/-! ## Concrete inputs used by counterexamples and witnesses. -/

/-- A full-page snapshot with no scrollable ancestor, no sidebars and
zero scroll. -/
def ctxPlain : VisCtx :=
  { isScoped := false, rootWithParent := true
    containerScrollX := 0, containerScrollY := 0
    containerClientW := 800, containerClientH := 600
    stateScrollX := 0, stateScrollY := 0
    stateWindowW := 800, stateWindowH := 600
    windowScrollX := 0, windowScrollY := 0
    scrollAncestor := none, isSidebarOpen := false, configPanelW := none }

/-- Flags of a comment that is the active thread but not dragged. -/
def flagsActive : PinFlags := ⟨false, false, true⟩

/-- Flags of a comment with no special interaction. -/
def flagsNone : PinFlags := ⟨false, false, false⟩

/-- A session whose single move left the 3px threshold but whose mouseup
returned to the start point within 150ms. -/
def sessOutAndBack : PointerSession :=
  { pinStartX := 0, pinStartY := 0
    startClientX := 0, startClientY := 0
    startScrollX := 0, startScrollY := 0
    startTime := 0
    moves := [⟨10, 0, 0, 0, 50⟩]
    upClientX := 0, upClientY := 0
    upScrollX := 0, upScrollY := 0
    upTime := 100 }

/-- The drag scenario of the spec: pin at document (300,300), pointer
moving by (40,-10) overall, with a second move falling inside the 16ms
throttle window. -/
def sessScenario : PointerSession :=
  { pinStartX := 300, pinStartY := 300
    startClientX := 100, startClientY := 100
    startScrollX := 0, startScrollY := 0
    startTime := 0
    moves := [⟨120, 95, 0, 0, 20⟩, ⟨140, 90, 0, 0, 30⟩]
    upClientX := 140, upClientY := 90
    upScrollX := 0, upScrollY := 0
    upTime := 200 }

/-- Hook state with the overlay hidden while the sidebar is open, as
reached by setVisibility(false) after a panel activation. -/
def hookHiddenSidebar : HookState :=
  { state :=
      { comments := [], activeCommentId := none, isVisible := false
        isCreatingComment := false, newCommentPosition := none
        showPreviewDot := false }
    activationSource := some .panel
    isSidebarOpen := true }

/-- Two sample comments used by witnesses. -/
def commentA : Comment :=
  { id := "a", x := JSNum.num 10, y := JSNum.num 20, text := "first"
    author := "ann", timestamp := 1, replies := [], resolved := false
    pageUrl := "/", parentId := none, selector := some "#hero" }

/-- Second sample comment. -/
def commentB : Comment :=
  { id := "b", x := JSNum.num 30, y := JSNum.num 40, text := "second"
    author := "bob", timestamp := 2, replies := [], resolved := true
    pageUrl := "/", parentId := none, selector := none }

/-- Sample hook state holding the two sample comments. -/
def stAB : CommentSystemState :=
  { comments := [commentA, commentB], activeCommentId := some "a"
    isVisible := true, isCreatingComment := false
    newCommentPosition := none, showPreviewDot := false }

/-! ## Theorems for the claims. -/

/-- C1.  Coordinate round-trip: for every frame (scoped container offset
plus container and window scroll offsets, or full-page window scroll)
and every document-space point, converting to the viewport space used by
the visibility filter, realising that viewport point on screen, and
applying the background-click document-coordinate computation returns
the original point exactly; and the converse round trip from any client
point is also the identity.  Rationals model the finite double values,
so the floating-point tolerance is exactness. -/
theorem coordinate_round_trip (f : ClickFrame) (docX docY clientX clientY : ℚ) :
    (onDocClickDoc f
        (viewportToClient f (visibleViewport f docX docY).1
          (visibleViewport f docX docY).2).1
        (viewportToClient f (visibleViewport f docX docY).1
          (visibleViewport f docX docY).2).2 = (docX, docY)) ∧
    (viewportToClient f
        (visibleViewport f (onDocClickDoc f clientX clientY).1
          (onDocClickDoc f clientX clientY).2).1
        (visibleViewport f (onDocClickDoc f clientX clientY).1
          (onDocClickDoc f clientX clientY).2).2 = (clientX, clientY)) := by
  unfold onDocClickDoc visibleViewport viewportToClient
  by_cases h : f.isScoped <;> simp [h, Prod.ext_iff]

/-- C2, counterexample.  A comment whose viewport position is NaN (here
because its stored x is NaN) is nevertheless reported visible by the
filter when it is the active thread: the early return for
dragged/recently-dragged/active comments precedes the validity check, so
the exclusion is not unconditional. -/
theorem pin_filter_invalid_counterexample :
    hasValidCoordinates
      (filterViewportData ctxPlain JSNum.nan (JSNum.num 0)).1
      (filterViewportData ctxPlain JSNum.nan (JSNum.num 0)).2.1 = false ∧
    visibleFilter ctxPlain flagsActive JSNum.nan (JSNum.num 0) = true := by
  decide

/-- C2, amended.  For every comment that is not being dragged, not
recently dragged and not the active thread, an invalid computed viewport
position (NaN, non-finite, or absolute value at least 100000 on either
axis) makes the visibility filter return false. -/
theorem pin_filter_invalid_excluded (ctx : VisCtx) (fl : PinFlags)
    (cx cy : JSNum)
    (hd : fl.dragging = false) (hr : fl.recentlyDragged = false)
    (ha : fl.active = false)
    (hv : hasValidCoordinates (filterViewportData ctx cx cy).1
      (filterViewportData ctx cx cy).2.1 = false) :
    visibleFilter ctx fl cx cy = false := by
  unfold visibleFilter
  simp [hd, hr, ha, hv]

/-- C2, witness.  A non-interacted comment at viewport x = 200000 in the
plain full-page frame is excluded. -/
theorem pin_filter_invalid_excluded_witness :
    hasValidCoordinates
      (filterViewportData ctxPlain (JSNum.num 200000) (JSNum.num 0)).1
      (filterViewportData ctxPlain (JSNum.num 200000) (JSNum.num 0)).2.1
      = false ∧
    visibleFilter ctxPlain flagsNone (JSNum.num 200000) (JSNum.num 0)
      = false := by
  have hv : hasValidCoordinates
      (filterViewportData ctxPlain (JSNum.num 200000) (JSNum.num 0)).1
      (filterViewportData ctxPlain (JSNum.num 200000) (JSNum.num 0)).2.1
      = false := by
    norm_num [hasValidCoordinates, filterViewportData, ctxPlain,
      sidebarWidth, JSNum.sub, JSNum.jlt, JSNum.isNaNb, JSNum.isFiniteB,
      JSNum.absN]
  exact ⟨hv,
    pin_filter_invalid_excluded ctxPlain flagsNone (JSNum.num 200000)
      (JSNum.num 0) rfl rfl rfl hv⟩

/-- The move handler leaves hasDragged set exactly when it was already
set or the current move leaves the threshold. -/
theorem stepMove_hasDragged (s : PointerSession) (st : MoveState)
    (m : MoveEvent) :
    (stepMove s st m).hasDragged =
      (st.hasDragged ||
        decide (distSq m.clientX m.clientY s.startClientX s.startClientY >
          dragThresholdSq)) := by
  unfold stepMove
  dsimp only
  split
  · split <;> rfl
  · rfl

/-- hasDragged after a run of move events: set exactly when it started
set or some move left the threshold. -/
theorem foldMoves_hasDragged (s : PointerSession) (l : List MoveEvent)
    (st : MoveState) :
    (l.foldl (stepMove s) st).hasDragged =
      (st.hasDragged ||
        l.any (fun m =>
          decide (distSq m.clientX m.clientY s.startClientX s.startClientY >
            dragThresholdSq))) := by
  induction l generalizing st with
  | nil => simp
  | cons m rest ih =>
    simp [List.foldl_cons, ih, stepMove_hasDragged, Bool.or_assoc]

/-- Characterization of sessionHasDragged: some move of the session left
the threshold. -/
theorem sessionHasDragged_any (s : PointerSession) :
    sessionHasDragged s =
      s.moves.any (fun m =>
        decide (distSq m.clientX m.clientY s.startClientX s.startClientY >
          dragThresholdSq)) := by
  unfold sessionHasDragged runMoves
  rw [foldMoves_hasDragged]
  rfl

/-- C3, counterexample.  A session whose single move went 10px away and
whose mouseup returned to the start point after 100ms satisfies the
claim's click condition (up distance at most the threshold, elapsed time
under 150ms), yet the click handler does not fire and a position commit
does occur: the code keys the commit on whether any move left the
threshold, not on the mouseup distance. -/
theorem click_drag_dichotomy_counterexample :
    distSq sessOutAndBack.upClientX sessOutAndBack.upClientY
      sessOutAndBack.startClientX sessOutAndBack.startClientY ≤
      dragThresholdSq ∧
    sessOutAndBack.upTime - sessOutAndBack.startTime < 150 ∧
    sessionClick sessOutAndBack = false ∧
    sessionCommit sessOutAndBack ≠ none := by
  have hd : sessionHasDragged sessOutAndBack = true := by
    rw [sessionHasDragged_any]
    norm_num [sessOutAndBack, distSq, dragThresholdSq]
  refine ⟨?_, ?_, ?_, ?_⟩
  · norm_num [sessOutAndBack, distSq, dragThresholdSq]
  · norm_num [sessOutAndBack]
  · unfold sessionClick
    rw [hd]
    rfl
  · unfold sessionCommit
    rw [hd]
    simp

/-- C3, amended.  For every pointer session on a pin: a position commit
occurs at mouseup exactly when some move event of the session left the
3px threshold; the click handler fires exactly when no move left the
threshold, the mouseup distance from the start is at most the threshold
and the elapsed time is under 150ms (so a click implies the claim's
condition and no commit); and the two outcomes never both occur.  They
are not exhaustive: a session with no move beyond the threshold and a
long press produces neither. -/
theorem click_drag_disambiguation (s : PointerSession) :
    ((sessionCommit s).isSome =
      s.moves.any (fun m =>
        decide (distSq m.clientX m.clientY s.startClientX s.startClientY >
          dragThresholdSq))) ∧
    (sessionClick s = true →
      distSq s.upClientX s.upClientY s.startClientX s.startClientY ≤
        dragThresholdSq ∧
      s.upTime - s.startTime < 150 ∧
      sessionCommit s = none) ∧
    ¬(sessionClick s = true ∧ (sessionCommit s).isSome = true) := by
  have hcommit : (sessionCommit s).isSome = sessionHasDragged s := by
    unfold sessionCommit
    cases h : sessionHasDragged s <;> simp [h]
  have hclick : sessionClick s = true →
      sessionHasDragged s = false ∧
      distSq s.upClientX s.upClientY s.startClientX s.startClientY ≤
        dragThresholdSq ∧
      s.upTime - s.startTime < 150 := by
    intro h
    unfold sessionClick at h
    simp only [Bool.and_eq_true, Bool.not_eq_true', decide_eq_true_eq] at h
    exact ⟨h.1.1, h.1.2, h.2⟩
  refine ⟨by rw [hcommit, sessionHasDragged_any], ?_, ?_⟩
  · intro h
    obtain ⟨hd, h1, h2⟩ := hclick h
    refine ⟨h1, h2, ?_⟩
    unfold sessionCommit
    rw [hd]
    rfl
  · rintro ⟨hc, hs⟩
    obtain ⟨hd, -, -⟩ := hclick hc
    rw [hcommit, hd] at hs
    exact Bool.false_ne_true hs

/-- C3, witness for the amended theorem: the out-and-back session
commits and does not click. -/
theorem click_drag_disambiguation_witness :
    (sessionCommit sessOutAndBack).isSome = true ∧
    sessionClick sessOutAndBack = false := by
  have h := click_drag_disambiguation sessOutAndBack
  constructor
  · rw [h.1]
    norm_num [sessOutAndBack, distSq, dragThresholdSq]
  · cases hc : sessionClick sessOutAndBack
    · rfl
    · exfalso
      obtain ⟨-, -, hnone⟩ := h.2.1 hc
      have : (sessionCommit sessOutAndBack).isSome = true := by
        rw [h.1]
        norm_num [sessOutAndBack, distSq, dragThresholdSq]
      rw [hnone] at this
      exact Bool.false_ne_true this

/-- C4.  For every session in which some move left the threshold, the
position committed at mouseup is the pin start position plus the
document-space displacement of the pointer (document position = client
position plus the scroll offsets read at each end), and that final
position is the last position emitted through onDrag, unconditionally of
the 16ms throttle state carried by lastDragUpdate. -/
theorem drag_commit_position (s : PointerSession)
    (h : sessionHasDragged s = true) :
    sessionCommit s =
      some (s.pinStartX +
              ((s.upClientX + s.upScrollX) -
                (s.startClientX + s.startScrollX)),
            s.pinStartY +
              ((s.upClientY + s.upScrollY) -
                (s.startClientY + s.startScrollY))) ∧
    (sessionEmitted s).getLast? =
      some (s.pinStartX +
              ((s.upClientX + s.upScrollX) -
                (s.startClientX + s.startScrollX)),
            s.pinStartY +
              ((s.upClientY + s.upScrollY) -
                (s.startClientY + s.startScrollY))) := by
  constructor
  · unfold sessionCommit
    rw [h]
    rfl
  · unfold sessionEmitted
    rw [h]
    simp [sessionFinalPos]

/-- C4, witness.  The spec scenario: pin at document (300,300), pointer
delta (40,-10), with the second move suppressed by the 16ms throttle;
the committed and last-emitted position is (340,290). -/
theorem drag_commit_position_witness :
    sessionHasDragged sessScenario = true ∧
    sessionCommit sessScenario = some ((340 : ℚ), (290 : ℚ)) ∧
    (sessionEmitted sessScenario).getLast? =
      some ((340 : ℚ), (290 : ℚ)) := by
  have hd : sessionHasDragged sessScenario = true := by
    rw [sessionHasDragged_any]
    norm_num [sessScenario, distSq, dragThresholdSq]
  have h := drag_commit_position sessScenario hd
  refine ⟨hd, ?_, ?_⟩
  · rw [h.1]
    norm_num [sessScenario]
  · rw [h.2]
    norm_num [sessScenario]

/-- Length of the path built by the selector walk: at most 5 whenever
the accumulated path is still below 5 segments. -/
theorem buildPath_length_le_five (chain : List ElemLevel) :
    ∀ path : List String, path.length < 5 →
      (buildPath chain path).length ≤ 5 := by
  induction chain with
  | nil =>
    intro path h
    simp only [buildPath]
    omega
  | cons l rest ih =>
    intro path h
    simp only [buildPath]
    split
    · simp only [List.length_cons]
      omega
    · have hlen : (levelSegment l :: path).length = path.length + 1 := by
        simp
      split
      · omega
      · next hlt =>
        refine ih _ ?_
        omega

/-- The selector walk never shrinks the accumulated path. -/
theorem buildPath_length_ge (chain : List ElemLevel) :
    ∀ path : List String, path.length ≤ (buildPath chain path).length := by
  induction chain with
  | nil => intro path; simp [buildPath]
  | cons l rest ih =>
    intro path
    simp only [buildPath]
    split
    · simp only [List.length_cons]
      omega
    · split
      · simp only [List.length_cons]
        omega
      · have := ih (levelSegment l :: path)
        simp only [List.length_cons] at this
        omega

/-- A non-empty chain contributes at least one segment. -/
theorem buildPath_length_pos (l : ElemLevel) (rest : List ElemLevel)
    (path : List String) :
    path.length + 1 ≤ (buildPath (l :: rest) path).length := by
  simp only [buildPath]
  split
  · simp only [List.length_cons]
    omega
  · split
    · simp only [List.length_cons]
      omega
    · have := buildPath_length_ge rest (levelSegment l :: path)
      simp only [List.length_cons] at this
      omega

/-- The walk stops at the first level with an id: when level i carries
an id, at most i + 1 segments are added past the accumulated path. -/
theorem buildPath_stops_at_id (chain : List ElemLevel) :
    ∀ (path : List String) (i : ℕ) (hi : i < chain.length),
      (chain.get ⟨i, hi⟩).id ≠ "" →
      (buildPath chain path).length ≤ path.length + i + 1 := by
  induction chain with
  | nil =>
    intro path i hi
    exact absurd hi (Nat.not_lt_zero i)
  | cons l rest ih =>
    intro path i hi hid
    simp only [buildPath]
    cases i with
    | zero =>
      simp only [List.get] at hid
      split
      · simp only [List.length_cons]
        omega
      · next hno => exact absurd hid hno
    | succ j =>
      split
      · simp only [List.length_cons]
        omega
      · split
        · simp only [List.length_cons]
          omega
        · have := ih (levelSegment l :: path) j
            (by simpa using Nat.lt_of_succ_lt_succ hi)
            (by simpa using hid)
          simp only [List.length_cons] at this
          omega

/-- C5.  generateSelector applied to an element with a non-empty id
returns exactly the hash followed by that id, with no ancestor path; for
an element without an id the result is the collected path segments
joined by the three-character path separator, the path is non-empty,
holds at most 5 segments, and stops early at the first level carrying an
id: when level i of the chain (the element itself at level 0, ancestors
above) has a non-empty id, at most i + 1 segments are collected. -/
theorem selector_generation (e : ElemLevel) (ancestors : List ElemLevel) :
    (e.id ≠ "" → generateSelector e ancestors = "#" ++ e.id) ∧
    (e.id = "" →
      generateSelector e ancestors =
        String.intercalate " > " (buildPath (e :: ancestors) []) ∧
      1 ≤ (buildPath (e :: ancestors) []).length ∧
      (buildPath (e :: ancestors) []).length ≤ 5 ∧
      ∀ (i : ℕ) (hi : i < (e :: ancestors).length),
        ((e :: ancestors).get ⟨i, hi⟩).id ≠ "" →
        (buildPath (e :: ancestors) []).length ≤ i + 1) := by
  constructor
  · intro h
    simp [generateSelector, h]
  · intro h
    refine ⟨by simp [generateSelector, h], ?_, ?_, ?_⟩
    · simpa using buildPath_length_pos e ancestors []
    · exact buildPath_length_le_five _ _ (by simp)
    · intro i hi hid
      simpa using buildPath_stops_at_id (e :: ancestors) [] i hi hid

/-- An ancestor carrying an id, as the walk sees it. -/
def elemWithId : ElemLevel :=
  { tagName := "DIV", id := "hero", className := none, hasParent := true
    sameTagCount := 1, sameTagIndex := 1 }

/-- A paragraph with two classes and a same-tag sibling. -/
def elemPara : ElemLevel :=
  { tagName := "P", id := "", className := some "note big"
    hasParent := true, sameTagCount := 2, sameTagIndex := 1 }

/-- A plain div level without id or classes. -/
def elemDiv : ElemLevel :=
  { tagName := "DIV", id := "", className := none, hasParent := true
    sameTagCount := 1, sameTagIndex := 1 }

/-- C5, witness.  The id case returns the hash selector; the pathless
case on a three-level chain whose top level carries an id consumes all
three levels, stays within the early-stop bound, and evaluates to the
concrete joined path. -/
theorem selector_generation_witness :
    generateSelector elemWithId [] = "#" ++ "hero" ∧
    generateSelector elemPara [elemDiv, elemWithId] =
      String.intercalate " > " (buildPath [elemPara, elemDiv, elemWithId] []) ∧
    (buildPath [elemPara, elemDiv, elemWithId] []).length ≤ 3 ∧
    generateSelector elemPara [elemDiv, elemWithId] =
      "div#hero > div > p.note.big:nth-of-type(1)" := by
  have h1 := (selector_generation elemWithId []).1 (by decide)
  have h2 := (selector_generation elemPara [elemDiv, elemWithId]).2 rfl
  have h3 := h2.2.2.2 2 (by decide) (by decide)
  exact ⟨h1, h2.1, by simpa using h3, by decide⟩

/-- C6.  Selector resolution order and exception safety: an exact
querySelector hit wins; on an exact miss with a path selector, the last
path segment decides; on a further miss with a hash selector, the id
lookup decides (whether or not the selector contained a path); and a
DOMException from either querySelector call is caught, yielding no
element instead of propagating. -/
theorem selector_resolution (d : Doc) (sel : String) :
    (∀ n, d.query sel = .ok (some n) → resolveSelector d sel = some n) ∧
    (d.query sel = .ok none → containsSeparator sel = true →
      ∀ n, d.query ((splitSelectorPath sel).getLastD "") = .ok (some n) →
        resolveSelector d sel = some n) ∧
    (d.query sel = .ok none → containsSeparator sel = true →
      d.query ((splitSelectorPath sel).getLastD "") = .ok none →
      matchesAtStart "#".data sel.data = true →
      resolveSelector d sel = d.byId (String.mk (sel.data.drop 1))) ∧
    (d.query sel = .ok none → containsSeparator sel = false →
      matchesAtStart "#".data sel.data = true →
      resolveSelector d sel = d.byId (String.mk (sel.data.drop 1))) ∧
    (d.query sel = .error () → resolveSelector d sel = none) ∧
    (d.query sel = .ok none → containsSeparator sel = true →
      d.query ((splitSelectorPath sel).getLastD "") = .error () →
      resolveSelector d sel = none) := by
  refine ⟨?_, ?_, ?_, ?_, ?_, ?_⟩
  · intro n hq
    simp [resolveSelector, resolveSelectorE, hq, Bind.bind, Except.bind,
      Pure.pure, Except.pure, Functor.map, Except.map]
  · intro hq hsep n hq2
    rw [List.getLastD_eq_getLast?] at hq2
    simp [resolveSelector, resolveSelectorE, hq, hsep, hq2, Bind.bind,
      Except.bind, Pure.pure, Except.pure, Functor.map, Except.map]
  · intro hq hsep hq2 hhash
    rw [List.getLastD_eq_getLast?] at hq2
    simp [resolveSelector, resolveSelectorE, hq, hsep, hq2, hhash,
      Bind.bind, Except.bind, Pure.pure, Except.pure, Functor.map,
      Except.map]
  · intro hq hsep hhash
    simp [resolveSelector, resolveSelectorE, hq, hsep, hhash, Bind.bind,
      Except.bind, Pure.pure, Except.pure, Functor.map, Except.map]
  · intro hq
    simp [resolveSelector, resolveSelectorE, hq, Bind.bind, Except.bind,
      Pure.pure, Except.pure, Functor.map, Except.map]
  · intro hq hsep hq2
    rw [List.getLastD_eq_getLast?] at hq2
    simp [resolveSelector, resolveSelectorE, hq, hsep, hq2, Bind.bind,
      Except.bind, Pure.pure, Except.pure, Functor.map, Except.map]

/-- A concrete DOM oracle: one id selector resolves exactly, one path
selector resolves only through its last segment, one hash selector
resolves only through the id lookup, and every other selector string
makes querySelector throw. -/
def docW : Doc :=
  { query := fun s =>
      if s = "#a" then .ok (some 1)
      else if s = "div > p" then .ok none
      else if s = "p" then .ok (some 2)
      else if s = "#gone" then .ok none
      else .error ()
    byId := fun s => if s = "gone" then some 3 else none }

/-- C6, witness.  On the concrete oracle: exact hit returns it, the path
fallback returns the last-segment hit, the id fallback fires for a hash
selector, and a malformed selector resolves to none without an
exception escaping. -/
theorem selector_resolution_witness :
    resolveSelector docW "#a" = some 1 ∧
    resolveSelector docW "div > p" = some 2 ∧
    resolveSelector docW "#gone" = some 3 ∧
    resolveSelector docW "bad[" = none := by
  have h1 := (selector_resolution docW "#a").1 1 rfl
  have h2 := (selector_resolution docW "div > p").2.1 rfl (by decide) 2 rfl
  have h3 := (selector_resolution docW "#gone").2.2.2.1 rfl (by decide)
    (by decide)
  have h4 := (selector_resolution docW "bad[").2.2.2.2.1 rfl
  exact ⟨h1, h2, h3.trans (by decide), h4⟩

/-- C7, counterexample.  In the reachable state where the overlay is
hidden while the sidebar is open (setVisibility(false) hides the overlay
without closing the sidebar), toggleVisibility treats the toggle as
close-all and leaves the overlay hidden, so isVisible is not the
negation of its previous value. -/
theorem toggle_visibility_counterexample :
    hookHiddenSidebar.state.isVisible = false ∧
    hookHiddenSidebar.isSidebarOpen = true ∧
    (toggleVisibility false hookHiddenSidebar).state.isVisible ≠
      !hookHiddenSidebar.state.isVisible := by
  decide

/-- C7, amended.  After toggleVisibility the overlay is visible exactly
when it was neither visible nor had the sidebar open before; the active
thread and the creation state are always cleared and the comment list is
untouched; in particular, whenever the sidebar is closed, the toggle
flips isVisible to the negation of its previous value. -/
theorem toggle_visibility_amended (skip : Bool) (h : HookState) :
    (toggleVisibility skip h).state.isVisible =
      !(h.state.isVisible || h.isSidebarOpen) ∧
    (toggleVisibility skip h).state.activeCommentId = none ∧
    (toggleVisibility skip h).state.isCreatingComment = false ∧
    (toggleVisibility skip h).state.newCommentPosition = none ∧
    (toggleVisibility skip h).state.showPreviewDot = false ∧
    (toggleVisibility skip h).state.comments = h.state.comments ∧
    (h.isSidebarOpen = false →
      (toggleVisibility skip h).state.isVisible = !h.state.isVisible) := by
  unfold toggleVisibility
  by_cases hv : h.state.isVisible <;> by_cases hs : h.isSidebarOpen <;>
    simp [hv, hs]

/-- A hook state with the overlay visible and the sidebar closed. -/
def hookVisibleOnly : HookState :=
  { state :=
      { comments := [], activeCommentId := some "a", isVisible := true
        isCreatingComment := true, newCommentPosition := some (5, 6)
        showPreviewDot := false }
    activationSource := some .manual
    isSidebarOpen := false }

/-- C7, witness for the amended theorem: with the sidebar closed the
toggle flips isVisible and clears the active thread and creation
state. -/
theorem toggle_visibility_amended_witness :
    (toggleVisibility false hookVisibleOnly).state.isVisible =
      !hookVisibleOnly.state.isVisible ∧
    (toggleVisibility false hookVisibleOnly).state.activeCommentId =
      none ∧
    (toggleVisibility false hookVisibleOnly).state.isCreatingComment =
      false :=
  have h := toggle_visibility_amended false hookVisibleOnly
  ⟨h.2.2.2.2.2.2 rfl, h.2.1, h.2.2.1⟩

/-- C8.  For every mutation, the state observable when the handler
returns is already the mutated state (the asynchronous save has not yet
settled); the state after the save settles is the same whether the save
succeeded or rejected (no rollback); no exception ever escapes; and a
rejected save of a mutation that persists is only logged. -/
theorem optimistic_mutation (m : Mutation) (st : CommentSystemState)
    (o : SaveOutcome) :
    (runMutation m st o).stateAfterCall = (applyMutation m st).1 ∧
    (runMutation m st o).finalState = (runMutation m st o).stateAfterCall ∧
    (runMutation m st o).uncaughtError = false ∧
    (∀ msg, o = .failure msg → (applyMutation m st).2 = true →
      (runMutation m st o).logged =
        ["Failed to save comments: " ++ msg]) := by
  unfold runMutation
  rcases o with _ | msg <;> dsimp only <;> split <;>
    simp_all

/-- C8, witness.  A position update over the sample state with a store
that rejects: the final state is the optimistically updated one, nothing
escapes, and the rejection is logged. -/
theorem optimistic_mutation_witness :
    (runMutation
        (.updatePosition "a" (JSNum.num 340) (JSNum.num 290) none) stAB
        (.failure "boom")).finalState =
      (applyMutation
        (.updatePosition "a" (JSNum.num 340) (JSNum.num 290) none)
        stAB).1 ∧
    (runMutation
        (.updatePosition "a" (JSNum.num 340) (JSNum.num 290) none) stAB
        (.failure "boom")).uncaughtError = false ∧
    (runMutation
        (.updatePosition "a" (JSNum.num 340) (JSNum.num 290) none) stAB
        (.failure "boom")).logged =
      ["Failed to save comments: " ++ "boom"] := by
  have h := optimistic_mutation
    (.updatePosition "a" (JSNum.num 340) (JSNum.num 290) none) stAB
    (.failure "boom")
  exact ⟨h.2.1.trans h.1, h.2.2.1, h.2.2.2 "boom" rfl (by decide)⟩

/-- C9.  Frame property of updateCommentPosition: positionally, every
comment whose id differs from the target passes through unchanged, and
the comment whose id matches changes exactly x, y and selector, the
selector keeping its previous value when no new selector is supplied;
its remaining fields and the list length are untouched. -/
theorem update_position_frame (comments : List Comment) (cid : String)
    (nx ny : JSNum) (nsel : Option String) :
    List.Forall₂ (fun c c' =>
      (c.id ≠ cid → c' = c) ∧
      (c.id = cid →
        c'.x = nx ∧ c'.y = ny ∧
        c'.selector =
          (match nsel with | some s => some s | none => c.selector) ∧
        c'.id = c.id ∧ c'.text = c.text ∧ c'.author = c.author ∧
        c'.timestamp = c.timestamp ∧ c'.replies = c.replies ∧
        c'.resolved = c.resolved ∧ c'.pageUrl = c.pageUrl ∧
        c'.parentId = c.parentId))
      comments (updateCommentPositionList comments cid nx ny nsel) := by
  induction comments with
  | nil => exact List.Forall₂.nil
  | cons c cs ih =>
    refine List.Forall₂.cons ?_ ih
    by_cases hc : c.id = cid <;>
      simp [updateCommentPositionList, hc]

/-- C9, witness.  The frame property at the two-comment sample list with
no replacement selector. -/
theorem update_position_frame_witness :
    List.Forall₂ (fun c c' =>
      (c.id ≠ "a" → c' = c) ∧
      (c.id = "a" →
        c'.x = JSNum.num 7 ∧ c'.y = JSNum.num 8 ∧
        c'.selector =
          (match (none : Option String) with
            | some s => some s | none => c.selector) ∧
        c'.id = c.id ∧ c'.text = c.text ∧ c'.author = c.author ∧
        c'.timestamp = c.timestamp ∧ c'.replies = c.replies ∧
        c'.resolved = c.resolved ∧ c'.pageUrl = c.pageUrl ∧
        c'.parentId = c.parentId))
      [commentA, commentB]
      (updateCommentPositionList [commentA, commentB] "a" (JSNum.num 7)
        (JSNum.num 8) none) :=
  update_position_frame [commentA, commentB] "a" (JSNum.num 7)
    (JSNum.num 8) none

/-- C10.  toggleCommentResolved is an involution on the comment list,
and a single application flips exactly the resolved flag of the
comments whose id matches, leaving every other field and every other
comment unchanged. -/
theorem toggle_resolved_involution (comments : List Comment)
    (cid : String) :
    toggleCommentResolvedList cid (toggleCommentResolvedList cid comments)
      = comments ∧
    List.Forall₂ (fun c c' =>
      c'.id = c.id ∧ c'.x = c.x ∧ c'.y = c.y ∧ c'.text = c.text ∧
      c'.author = c.author ∧ c'.timestamp = c.timestamp ∧
      c'.replies = c.replies ∧ c'.pageUrl = c.pageUrl ∧
      c'.parentId = c.parentId ∧ c'.selector = c.selector ∧
      c'.resolved = (if c.id = cid then !c.resolved else c.resolved))
      comments (toggleCommentResolvedList cid comments) := by
  constructor
  · induction comments with
    | nil => rfl
    | cons c cs ih =>
      unfold toggleCommentResolvedList at ih ⊢
      simp only [List.map_cons, List.cons.injEq]
      refine ⟨?_, ih⟩
      by_cases hc : c.id = cid
      · cases c
        simp_all
      · simp [hc]
  · induction comments with
    | nil => exact List.Forall₂.nil
    | cons c cs ih =>
      refine List.Forall₂.cons ?_ ih
      by_cases hc : c.id = cid <;>
        simp [toggleCommentResolvedList, hc]

/-- C10, witness.  Toggling twice on the sample list restores it. -/
theorem toggle_resolved_involution_witness :
    toggleCommentResolvedList "b"
        (toggleCommentResolvedList "b" [commentA, commentB]) =
      [commentA, commentB] :=
  (toggle_resolved_involution [commentA, commentB] "b").1

end CommentWidget
